import Mathlib

/-!
Verification of `salt/modules/boto_clouddirectory.py`, a Salt execution module
exposing AWS Cloud Directory operations.  Every public operation follows the
same shape: resolve a boto connection, validate required arguments (raising
`SaltInvocationError` on an empty/absent one), issue a single remote call,
catch `botocore.exceptions.ClientError` and turn it into an error mapping,
and on success project a field out of the provider response.

The embedding is a shallow one.  External collaborators that the module
resolves dynamically (`_get_conn` assigned by `boto3.assign_funcs`, the
`boto3.get_error` normalizer, and the file-reading utility used by
`_filedata`) are abstracted as fields of an `Env` record, so theorems
quantify over every possible collaborator behavior.  Each operation also
returns an explicit event trace recording connection resolution, file reads
and the remote call together with the exact keyword arguments passed to it;
this makes ordering and argument-forwarding claims statable.
-/

set_option autoImplicit false

namespace BotoCloudDirectory

/-- A Python value appearing in a provider response: a string (e.g. an ARN)
or a list of strings (e.g. the `SchemaArns` field). -/
inductive Value where
  | str : String → Value
  | strList : List String → Value
deriving DecidableEq, Repr

/-- A provider response, modelling the Python dict returned by a boto call:
an association list from field names to values. -/
abbrev Resp := List (String × Value)

/-- An argument value passed to a provider call: a string, or the raw bytes
of a document (bytes modelled as a list of byte values). -/
inductive Arg where
  | str : String → Arg
  | bytes : List Nat → Arg
deriving DecidableEq, Repr

/-- Python exceptions relevant to this module.  `clientError` is
`botocore.exceptions.ClientError` (carrying the information that
`boto3.get_error` normalizes); `saltInvocationError` is Salt's
`SaltInvocationError`; `keyError` is a dict lookup failure; `ioError` is a
local file-read failure. -/
inductive Exn where
  | clientError : String → Exn
  | saltInvocationError : String → Exn
  | keyError : String → Exn
  | ioError : String → Exn
deriving DecidableEq, Repr

/-- The value an operation returns when it does not raise: a projected
response value, or the `\x7berror: description\x7d` mapping. -/
inductive Ret where
  | val : Value → Ret
  | errMap : String → Ret
deriving DecidableEq, Repr

/-- The optional connection-selection keyword arguments every operation
accepts: region, key, keyid, profile. -/
structure ConnArgs where
  region : Option String
  key : Option String
  keyid : Option String
  profile : Option String
deriving DecidableEq, Repr

/-- A resolved boto connection handle.  A boto client is duck-typed, so it is
modelled as a single dispatch function from an API name and the keyword
arguments to either a response dict or a raised exception.  (A mock
connection in the spec's sense is just a concrete `Conn`.) -/
structure Conn where
  call : String → List (String × Arg) → Except Exn Resp

/-- The external collaborators the module resolves dynamically:
`_get_conn` (assigned by `boto3.assign_funcs`), the error normalizer
`__utils__` applied at `boto3.get_error`, and the file-opening utility that
`_filedata` uses (`salt.utils.fopen(infile).read()`). -/
structure Env where
  getConn : ConnArgs → Conn
  get_error : String → String
  readFile : String → Except Exn (List Nat)

/-- One observable effect of an operation: resolving the connection, reading
a local file, or issuing the remote call with its exact keyword arguments. -/
inductive Event where
  | getConn : ConnArgs → Event
  | fileRead : String → Event
  | remoteCall : String → List (String × Arg) → Event
deriving DecidableEq, Repr

/-- Python truthiness test `not x` for an optional string argument: `None`
and the empty string are falsy. -/
def falsy : Option String → Bool
  | none => true
  | some s => decide (s = "")

/-- Python `str(...)` applied to a value that is already a string is the
identity (the module applies it to `version` in `publish_schema`). -/
def pyStr (s : String) : String := s

/-- Python dict subscription `resp[k]`: the value when the key is present,
a raised `KeyError` otherwise. -/
def pyGetItem (resp : Resp) (k : String) : Except Exn Value :=
  match List.lookup k resp with
  | some v => Except.ok v
  | none => Except.error (Exn.keyError k)

/-- Python iteration over a response value, as in
`for arn in dev_schemas[...]`: a list iterates its elements, a string
iterates its characters (each yielded as a one-character string). -/
def iterVal : Value → List String
  | Value.str s => s.data.map (fun c => String.mk [c])
  | Value.strList l => l

/-- The `arn_list = []; for arn in v: arn_list.append(arn)` loop of the two
list operations, as a left fold appending each element. -/
def appendLoop (v : Value) : List String :=
  (iterVal v).foldl (fun acc a => acc ++ [a]) []

/-- `_filedata(infile)`: private helper reading the file as raw bytes
(`salt.utils.fopen(infile, 'rb')` then `.read()`); any failure propagates,
nothing is caught. -/
def _filedata (env : Env) (infile : String) : Except Exn (List Nat) :=
  env.readFile infile

/-- `create_schema(name, ...)`: resolve connection; require a non-empty
name; call `conn.create_schema(Name=name)`; on `ClientError` return the
error mapping; otherwise return `create_s['SchemaArn']`. -/
def create_schema (env : Env) (name : Option String) (cargs : ConnArgs) :
    List Event × Except Exn Ret :=
  let conn := env.getConn cargs
  let tr0 := [Event.getConn cargs]
  if falsy name then
    (tr0, Except.error (Exn.saltInvocationError "Must specify schema name to use"))
  else
    let fields := [("Name", Arg.str (name.getD ""))]
    let result : Except Exn Ret :=
      match conn.call "create_schema" fields with
      | Except.error (Exn.clientError e) => Except.ok (Ret.errMap (env.get_error e))
      | Except.error e => Except.error e
      | Except.ok create_s =>
        match pyGetItem create_s "SchemaArn" with
        | Except.ok v => Except.ok (Ret.val v)
        | Except.error e => Except.error e
    (tr0 ++ [Event.remoteCall "create_schema" fields], result)

/-- `publish_schema(arn, version, ...)`: resolve connection; require a
non-empty arn and version; call
`conn.publish_schema(DevelopmentSchemaArn=arn, Version=str(version))`; on
`ClientError` return the error mapping; otherwise return
`publish_s['PublishedSchemaArn']`. -/
def publish_schema (env : Env) (arn version : Option String) (cargs : ConnArgs) :
    List Event × Except Exn Ret :=
  let conn := env.getConn cargs
  let tr0 := [Event.getConn cargs]
  if falsy arn || falsy version then
    (tr0, Except.error
      (Exn.saltInvocationError "Must specify development schema ARN and version to use"))
  else
    let fields := [("DevelopmentSchemaArn", Arg.str (arn.getD "")),
                   ("Version", Arg.str (pyStr (version.getD "")))]
    let result : Except Exn Ret :=
      match conn.call "publish_schema" fields with
      | Except.error (Exn.clientError e) => Except.ok (Ret.errMap (env.get_error e))
      | Except.error e => Except.error e
      | Except.ok publish_s =>
        match pyGetItem publish_s "PublishedSchemaArn" with
        | Except.ok v => Except.ok (Ret.val v)
        | Except.error e => Except.error e
    (tr0 ++ [Event.remoteCall "publish_schema" fields], result)

/-- `create_directory(name, arn, ...)`: resolve connection; require a
non-empty name and arn; call `conn.create_directory(Name=name,
SchemaArn=arn)`; on `ClientError` return the error mapping; otherwise
return `create_d['DirectoryArn']`. -/
def create_directory (env : Env) (name arn : Option String) (cargs : ConnArgs) :
    List Event × Except Exn Ret :=
  let conn := env.getConn cargs
  let tr0 := [Event.getConn cargs]
  if falsy name || falsy arn then
    (tr0, Except.error (Exn.saltInvocationError "Must specify directory name and schema ARN"))
  else
    let fields := [("Name", Arg.str (name.getD "")),
                   ("SchemaArn", Arg.str (arn.getD ""))]
    let result : Except Exn Ret :=
      match conn.call "create_directory" fields with
      | Except.error (Exn.clientError e) => Except.ok (Ret.errMap (env.get_error e))
      | Except.error e => Except.error e
      | Except.ok create_d =>
        match pyGetItem create_d "DirectoryArn" with
        | Except.ok v => Except.ok (Ret.val v)
        | Except.error e => Except.error e
    (tr0 ++ [Event.remoteCall "create_directory" fields], result)

/-- `put_schema_from_json(arn, document, ...)`: resolve connection; require
a non-empty arn and document path; read the document via `_filedata`
(failures propagate, the read is outside the try block); call
`conn.put_schema_from_json(SchemaArn=arn, Document=json_document)`; on
`ClientError` return the error mapping; otherwise return
`put_schema['Arn']`. -/
def put_schema_from_json (env : Env) (arn document : Option String) (cargs : ConnArgs) :
    List Event × Except Exn Ret :=
  let conn := env.getConn cargs
  let tr0 := [Event.getConn cargs]
  if falsy arn || falsy document then
    (tr0, Except.error (Exn.saltInvocationError "Must specify schema ARN and JSON document"))
  else
    let doc := document.getD ""
    let tr1 := tr0 ++ [Event.fileRead doc]
    match _filedata env doc with
    | Except.error e => (tr1, Except.error e)
    | Except.ok json_document =>
      let fields := [("SchemaArn", Arg.str (arn.getD "")),
                     ("Document", Arg.bytes json_document)]
      let result : Except Exn Ret :=
        match conn.call "put_schema_from_json" fields with
        | Except.error (Exn.clientError e) => Except.ok (Ret.errMap (env.get_error e))
        | Except.error e => Except.error e
        | Except.ok put_schema =>
          match pyGetItem put_schema "Arn" with
          | Except.ok v => Except.ok (Ret.val v)
          | Except.error e => Except.error e
      (tr1 ++ [Event.remoteCall "put_schema_from_json" fields], result)

/-- `delete_schema(arn, ...)`: resolve connection; require a non-empty arn;
call `conn.delete_schema(SchemaArn=arn)`; on `ClientError` return the error
mapping; otherwise return the input `arn` itself (the response is bound to
`create_d` but never used). -/
def delete_schema (env : Env) (arn : Option String) (cargs : ConnArgs) :
    List Event × Except Exn Ret :=
  let conn := env.getConn cargs
  let tr0 := [Event.getConn cargs]
  if falsy arn then
    (tr0, Except.error (Exn.saltInvocationError "Must specify schema ARN to delete"))
  else
    let a := arn.getD ""
    let fields := [("SchemaArn", Arg.str a)]
    let result : Except Exn Ret :=
      match conn.call "delete_schema" fields with
      | Except.error (Exn.clientError e) => Except.ok (Ret.errMap (env.get_error e))
      | Except.error e => Except.error e
      | Except.ok _ => Except.ok (Ret.val (Value.str a))
    (tr0 ++ [Event.remoteCall "delete_schema" fields], result)

/-- `list_development_schema_arns(...)`: resolve connection (no required
arguments); call `conn.list_development_schema_arns()`; iterate
`dev_schemas['SchemaArns']` appending into `arn_list`; on `ClientError`
return the error mapping; a `KeyError` from the subscription is not a
`ClientError` and propagates. -/
def list_development_schema_arns (env : Env) (cargs : ConnArgs) :
    List Event × Except Exn Ret :=
  let conn := env.getConn cargs
  let tr0 := [Event.getConn cargs]
  let result : Except Exn Ret :=
    match conn.call "list_development_schema_arns" [] with
    | Except.error (Exn.clientError e) => Except.ok (Ret.errMap (env.get_error e))
    | Except.error e => Except.error e
    | Except.ok dev_schemas =>
      match pyGetItem dev_schemas "SchemaArns" with
      | Except.ok v => Except.ok (Ret.val (Value.strList (appendLoop v)))
      | Except.error e => Except.error e
  (tr0 ++ [Event.remoteCall "list_development_schema_arns" []], result)

/-- `list_published_schema_arns(...)`: resolve connection (no required
arguments); call `conn.list_published_schema_arns()`; iterate
`pub_schemas['SchemaArns']` appending into `arn_list`; on `ClientError`
return the error mapping; a `KeyError` from the subscription is not a
`ClientError` and propagates. -/
def list_published_schema_arns (env : Env) (cargs : ConnArgs) :
    List Event × Except Exn Ret :=
  let conn := env.getConn cargs
  let tr0 := [Event.getConn cargs]
  let result : Except Exn Ret :=
    match conn.call "list_published_schema_arns" [] with
    | Except.error (Exn.clientError e) => Except.ok (Ret.errMap (env.get_error e))
    | Except.error e => Except.error e
    | Except.ok pub_schemas =>
      match pyGetItem pub_schemas "SchemaArns" with
      | Except.ok v => Except.ok (Ret.val (Value.strList (appendLoop v)))
      | Except.error e => Except.error e
  (tr0 ++ [Event.remoteCall "list_published_schema_arns" []], result)

/-- Recognizer for connection-resolution events, used to count them in a
trace. -/
def isGetConn : Event → Bool
  | Event.getConn _ => true
  | _ => false

/-! Concrete fixtures used by the witness theorems: a fixed set of
connection arguments, a fully populated mock response, and environments
whose mock connections respectively succeed, raise `ClientError`, return an
empty dict, fail the file read, or report zero schema ARNs. -/

/-- Connection-selection arguments used in the witnesses. -/
def cargs0 : ConnArgs := ⟨some "us-west-2", none, none, none⟩

/-- A mock response dict containing every field the operations project. -/
def okResp : Resp :=
  [("SchemaArn", Value.str "arn:dev"), ("PublishedSchemaArn", Value.str "arn:pub"),
   ("DirectoryArn", Value.str "arn:dir"), ("Arn", Value.str "arn:put"),
   ("SchemaArns", Value.strList ["a1", "a2"])]

/-- The bytes of the JSON document `b'\x7b"a":1\x7d'`. -/
def docBytes : List Nat := [123, 34, 97, 34, 58, 49, 125]

/-- Environment whose mock connection always succeeds with `okResp` and
whose filesystem always yields `docBytes`. -/
def envOk : Env :=
  { getConn := fun _ => ⟨fun _ _ => Except.ok okResp⟩
    get_error := fun d => d
    readFile := fun _ => Except.ok docBytes }

/-- Environment whose mock connection always raises `ClientError`. -/
def envErr : Env :=
  { getConn := fun _ => ⟨fun _ _ => Except.error (Exn.clientError "AccessDenied")⟩
    get_error := fun d => "error: " ++ d
    readFile := fun _ => Except.ok docBytes }

/-- Environment whose mock connection succeeds with an empty dict. -/
def envEmptyResp : Env :=
  { getConn := fun _ => ⟨fun _ _ => Except.ok []⟩
    get_error := fun d => d
    readFile := fun _ => Except.ok docBytes }

/-- Environment whose filesystem fails every read. -/
def envNoFile : Env :=
  { getConn := fun _ => ⟨fun _ _ => Except.ok okResp⟩
    get_error := fun d => d
    readFile := fun p => Except.error (Exn.ioError ("No such file: " ++ p)) }

/-- Environment whose mock connection reports zero schema ARNs. -/
def envZeroArns : Env :=
  { getConn := fun _ => ⟨fun _ _ => Except.ok [("SchemaArns", Value.strList [])]⟩
    get_error := fun d => d
    readFile := fun _ => Except.ok docBytes }

/-- The append-into-an-accumulator fold extends the accumulator with the
folded list. -/
theorem foldl_append_singleton (l acc : List String) :
    l.foldl (fun acc a => acc ++ [a]) acc = acc ++ l := by
  induction l generalizing acc with
  | nil => simp
  | cons x xs ih => simp [List.foldl, ih]

/-- The module's append loop over a provider list value returns that list. -/
theorem appendLoop_strList (l : List String) : appendLoop (Value.strList l) = l := by
  simp [appendLoop, iterVal, foldl_append_singleton]

/-- Claim C2: every operation with required arguments raises
`SaltInvocationError` when any required argument is empty or absent, before
the remote call (and before any file read): the whole outcome is the
single-event trace `[getConn]` together with the raised invocation error,
never the `\x7berror: ...\x7d` mapping. -/
theorem C2_invocation_error_before_remote_call
    (env : Env) (cargs : ConnArgs) (name arn version document : Option String) :
    (falsy name = true →
      create_schema env name cargs =
        ([Event.getConn cargs],
         Except.error (Exn.saltInvocationError "Must specify schema name to use"))) ∧
    ((falsy arn = true ∨ falsy version = true) →
      publish_schema env arn version cargs =
        ([Event.getConn cargs],
         Except.error (Exn.saltInvocationError
           "Must specify development schema ARN and version to use"))) ∧
    ((falsy name = true ∨ falsy arn = true) →
      create_directory env name arn cargs =
        ([Event.getConn cargs],
         Except.error (Exn.saltInvocationError "Must specify directory name and schema ARN"))) ∧
    ((falsy arn = true ∨ falsy document = true) →
      put_schema_from_json env arn document cargs =
        ([Event.getConn cargs],
         Except.error (Exn.saltInvocationError "Must specify schema ARN and JSON document"))) ∧
    (falsy arn = true →
      delete_schema env arn cargs =
        ([Event.getConn cargs],
         Except.error (Exn.saltInvocationError "Must specify schema ARN to delete"))) := by
  refine ⟨fun h => ?_, fun h => ?_, fun h => ?_, fun h => ?_, fun h => ?_⟩
  · simp [create_schema, h]
  · rcases h with h | h <;> simp [publish_schema, h]
  · rcases h with h | h <;> simp [create_directory, h]
  · rcases h with h | h <;> simp [put_schema_from_json, h]
  · simp [delete_schema, h]

/-- Witness for C2 at concrete inputs: absent name, empty arn. -/
theorem C2_witness :
    create_schema envOk none cargs0 =
      ([Event.getConn cargs0],
       Except.error (Exn.saltInvocationError "Must specify schema name to use")) ∧
    publish_schema envOk (some "") (some "1.0") cargs0 =
      ([Event.getConn cargs0],
       Except.error (Exn.saltInvocationError
         "Must specify development schema ARN and version to use")) ∧
    create_directory envOk none (some "") cargs0 =
      ([Event.getConn cargs0],
       Except.error (Exn.saltInvocationError "Must specify directory name and schema ARN")) ∧
    put_schema_from_json envOk (some "") (some "/doc.json") cargs0 =
      ([Event.getConn cargs0],
       Except.error (Exn.saltInvocationError "Must specify schema ARN and JSON document")) ∧
    delete_schema envOk (some "") cargs0 =
      ([Event.getConn cargs0],
       Except.error (Exn.saltInvocationError "Must specify schema ARN to delete")) := by
  have h := C2_invocation_error_before_remote_call envOk cargs0 none (some "")
    (some "1.0") (some "/doc.json")
  exact ⟨h.1 (by decide), h.2.1 (Or.inl (by decide)), h.2.2.1 (Or.inl (by decide)),
    h.2.2.2.1 (Or.inl (by decide)), h.2.2.2.2 (by decide)⟩

/-- Claim C3: on a successful remote delete call, `delete_schema` returns
exactly the input arn, whatever the provider response dict contains. -/
theorem C3_delete_schema_echo
    (env : Env) (cargs : ConnArgs) (a : String) (resp : Resp)
    (ha : a ≠ "")
    (hcall : (env.getConn cargs).call "delete_schema" [("SchemaArn", Arg.str a)] =
      Except.ok resp) :
    (delete_schema env (some a) cargs).2 = Except.ok (Ret.val (Value.str a)) := by
  simp [delete_schema, falsy, ha, hcall]

/-- Witness for C3: deleting arn `"X"` against the all-ok mock connection
echoes `"X"`. -/
theorem C3_witness :
    (delete_schema envOk (some "X") cargs0).2 = Except.ok (Ret.val (Value.str "X")) :=
  C3_delete_schema_echo envOk cargs0 "X" okResp (by decide) rfl

/-- Claim C7: on a successful remote call, `create_schema` returns exactly
the string held in the response's `SchemaArn` field. -/
theorem C7_create_schema_returns_schema_arn
    (env : Env) (cargs : ConnArgs) (n a : String) (resp : Resp)
    (hn : n ≠ "")
    (hcall : (env.getConn cargs).call "create_schema" [("Name", Arg.str n)] = Except.ok resp)
    (hlook : List.lookup "SchemaArn" resp = some (Value.str a)) :
    (create_schema env (some n) cargs).2 = Except.ok (Ret.val (Value.str a)) := by
  simp [create_schema, falsy, hn, hcall, pyGetItem, hlook]

/-- Witness for C7: creating schema `"dev1"` against the all-ok mock
connection returns the mock's `SchemaArn` string. -/
theorem C7_witness :
    (create_schema envOk (some "dev1") cargs0).2 =
      Except.ok (Ret.val (Value.str "arn:dev")) :=
  C7_create_schema_returns_schema_arn envOk cargs0 "dev1" "arn:dev" okResp
    (by decide) rfl (by decide)

/-- Claim C1: in every operation, when the remote call raises the
provider's `ClientError`, the operation catches it and returns (does not
raise) the mapping with single key `error` holding the normalized
description `get_error d`; the outcome is exactly that error mapping. -/
theorem C1_client_error_caught_and_mapped
    (env : Env) (cargs : ConnArgs) (n nm a ver doc d : String) (b : List Nat)
    (hn : n ≠ "") (hnm : nm ≠ "") (ha : a ≠ "") (hv : ver ≠ "") (hdoc : doc ≠ "")
    (hconn : ∀ api fields, (env.getConn cargs).call api fields =
      Except.error (Exn.clientError d))
    (hread : env.readFile doc = Except.ok b) :
    (create_schema env (some n) cargs).2 = Except.ok (Ret.errMap (env.get_error d)) ∧
    (publish_schema env (some a) (some ver) cargs).2 =
      Except.ok (Ret.errMap (env.get_error d)) ∧
    (create_directory env (some nm) (some a) cargs).2 =
      Except.ok (Ret.errMap (env.get_error d)) ∧
    (put_schema_from_json env (some a) (some doc) cargs).2 =
      Except.ok (Ret.errMap (env.get_error d)) ∧
    (delete_schema env (some a) cargs).2 = Except.ok (Ret.errMap (env.get_error d)) ∧
    (list_development_schema_arns env cargs).2 = Except.ok (Ret.errMap (env.get_error d)) ∧
    (list_published_schema_arns env cargs).2 = Except.ok (Ret.errMap (env.get_error d)) := by
  refine ⟨?_, ?_, ?_, ?_, ?_, ?_, ?_⟩
  · simp [create_schema, falsy, hn, hconn]
  · simp [publish_schema, falsy, ha, hv, hconn]
  · simp [create_directory, falsy, hnm, ha, hconn]
  · simp [put_schema_from_json, falsy, ha, hdoc, _filedata, hread, hconn]
  · simp [delete_schema, falsy, ha, hconn]
  · simp [list_development_schema_arns, hconn]
  · simp [list_published_schema_arns, hconn]

/-- Witness for C1: against the mock connection that always raises
`ClientError "AccessDenied"`, all seven operations return the normalized
error mapping. -/
theorem C1_witness :
    (create_schema envErr (some "n") cargs0).2 =
      Except.ok (Ret.errMap (envErr.get_error "AccessDenied")) ∧
    (publish_schema envErr (some "a") (some "1.0") cargs0).2 =
      Except.ok (Ret.errMap (envErr.get_error "AccessDenied")) ∧
    (create_directory envErr (some "dir") (some "a") cargs0).2 =
      Except.ok (Ret.errMap (envErr.get_error "AccessDenied")) ∧
    (put_schema_from_json envErr (some "a") (some "/doc.json") cargs0).2 =
      Except.ok (Ret.errMap (envErr.get_error "AccessDenied")) ∧
    (delete_schema envErr (some "a") cargs0).2 =
      Except.ok (Ret.errMap (envErr.get_error "AccessDenied")) ∧
    (list_development_schema_arns envErr cargs0).2 =
      Except.ok (Ret.errMap (envErr.get_error "AccessDenied")) ∧
    (list_published_schema_arns envErr cargs0).2 =
      Except.ok (Ret.errMap (envErr.get_error "AccessDenied")) :=
  C1_client_error_caught_and_mapped envErr cargs0 "n" "dir" "a" "1.0" "/doc.json"
    "AccessDenied" docBytes (by decide) (by decide) (by decide) (by decide) (by decide)
    (fun _ _ => rfl) rfl

/-- Claim C4: in `put_schema_from_json`, the document is read after
argument validation and before the remote call, and a read failure
propagates to the caller uncaught: the outcome is the raised exception
itself (the trace shows no remote call was made), not the error mapping. -/
theorem C4_file_read_failure_propagates
    (env : Env) (cargs : ConnArgs) (a doc : String) (e : Exn)
    (ha : a ≠ "") (hdoc : doc ≠ "")
    (hread : env.readFile doc = Except.error e) :
    put_schema_from_json env (some a) (some doc) cargs =
      ([Event.getConn cargs, Event.fileRead doc], Except.error e) := by
  simp [put_schema_from_json, falsy, ha, hdoc, _filedata, hread]

/-- Witness for C4: against the environment whose filesystem fails every
read, `put_schema_from_json` raises the local I/O error. -/
theorem C4_witness :
    put_schema_from_json envNoFile (some "A") (some "/doc.json") cargs0 =
      ([Event.getConn cargs0, Event.fileRead "/doc.json"],
       Except.error (Exn.ioError ("No such file: " ++ "/doc.json"))) :=
  C4_file_read_failure_propagates envNoFile cargs0 "A" "/doc.json"
    (Exn.ioError ("No such file: " ++ "/doc.json")) (by decide) (by decide) rfl

/-- Claim C5: `put_schema_from_json` passes exactly the raw bytes read from
the document file as the `Document` argument of the provider call, and on
success returns the `Arn` field of the provider response. -/
theorem C5_document_bytes_forwarded
    (env : Env) (cargs : ConnArgs) (a doc : String) (b : List Nat) (resp : Resp) (v : Value)
    (ha : a ≠ "") (hdoc : doc ≠ "")
    (hread : env.readFile doc = Except.ok b)
    (hcall : (env.getConn cargs).call "put_schema_from_json"
      [("SchemaArn", Arg.str a), ("Document", Arg.bytes b)] = Except.ok resp)
    (hlook : List.lookup "Arn" resp = some v) :
    put_schema_from_json env (some a) (some doc) cargs =
      ([Event.getConn cargs, Event.fileRead doc,
        Event.remoteCall "put_schema_from_json"
          [("SchemaArn", Arg.str a), ("Document", Arg.bytes b)]],
       Except.ok (Ret.val v)) := by
  simp [put_schema_from_json, falsy, ha, hdoc, _filedata, hread, hcall, pyGetItem, hlook]

/-- Witness for C5: with the mock filesystem holding the bytes of
`b'\x7b"a":1\x7d'`, the provider call receives exactly those bytes and the
operation returns the mock response's `Arn` field. -/
theorem C5_witness :
    put_schema_from_json envOk (some "A") (some "/doc.json") cargs0 =
      ([Event.getConn cargs0, Event.fileRead "/doc.json",
        Event.remoteCall "put_schema_from_json"
          [("SchemaArn", Arg.str "A"), ("Document", Arg.bytes docBytes)]],
       Except.ok (Ret.val (Value.str "arn:put"))) :=
  C5_document_bytes_forwarded envOk cargs0 "A" "/doc.json" docBytes okResp
    (Value.str "arn:put") (by decide) (by decide) rfl rfl (by decide)

/-- Claim C6: both list operations return the provider's `SchemaArns`
sequence as a list in the same order; zero reported ARNs yield the empty
list, not an error mapping. -/
theorem C6_list_arns_passthrough
    (env : Env) (cargs : ConnArgs) (rdev rpub : Resp) (ldev lpub : List String)
    (hdev : (env.getConn cargs).call "list_development_schema_arns" [] = Except.ok rdev)
    (hdevl : List.lookup "SchemaArns" rdev = some (Value.strList ldev))
    (hpub : (env.getConn cargs).call "list_published_schema_arns" [] = Except.ok rpub)
    (hpubl : List.lookup "SchemaArns" rpub = some (Value.strList lpub)) :
    (list_development_schema_arns env cargs).2 =
      Except.ok (Ret.val (Value.strList ldev)) ∧
    (list_published_schema_arns env cargs).2 =
      Except.ok (Ret.val (Value.strList lpub)) := by
  constructor
  · simp [list_development_schema_arns, hdev, pyGetItem, hdevl, appendLoop_strList]
  · simp [list_published_schema_arns, hpub, pyGetItem, hpubl, appendLoop_strList]

/-- Witness for C6: against the mock connection reporting zero ARNs, both
list operations return the empty list. -/
theorem C6_witness :
    (list_development_schema_arns envZeroArns cargs0).2 =
      Except.ok (Ret.val (Value.strList [])) ∧
    (list_published_schema_arns envZeroArns cargs0).2 =
      Except.ok (Ret.val (Value.strList [])) :=
  C6_list_arns_passthrough envZeroArns cargs0 [("SchemaArns", Value.strList [])]
    [("SchemaArns", Value.strList [])] [] [] rfl (by decide) rfl (by decide)

/-- Claim C8: every operation forwards its validated required arguments
unchanged to the provider's field names in the single remote call — in
particular `publish_schema` forwards its arn as `DevelopmentSchemaArn` and
its version as `Version`, unchanged — as shown by the full event trace. -/
theorem C8_arguments_forwarded_one_to_one
    (env : Env) (cargs : ConnArgs) (n nm a ver doc : String) (b : List Nat)
    (hn : n ≠ "") (hnm : nm ≠ "") (ha : a ≠ "") (hv : ver ≠ "") (hdoc : doc ≠ "")
    (hread : env.readFile doc = Except.ok b) :
    (create_schema env (some n) cargs).1 =
      [Event.getConn cargs, Event.remoteCall "create_schema" [("Name", Arg.str n)]] ∧
    (publish_schema env (some a) (some ver) cargs).1 =
      [Event.getConn cargs, Event.remoteCall "publish_schema"
        [("DevelopmentSchemaArn", Arg.str a), ("Version", Arg.str ver)]] ∧
    (create_directory env (some nm) (some a) cargs).1 =
      [Event.getConn cargs, Event.remoteCall "create_directory"
        [("Name", Arg.str nm), ("SchemaArn", Arg.str a)]] ∧
    (put_schema_from_json env (some a) (some doc) cargs).1 =
      [Event.getConn cargs, Event.fileRead doc,
       Event.remoteCall "put_schema_from_json"
         [("SchemaArn", Arg.str a), ("Document", Arg.bytes b)]] ∧
    (delete_schema env (some a) cargs).1 =
      [Event.getConn cargs, Event.remoteCall "delete_schema" [("SchemaArn", Arg.str a)]] ∧
    (list_development_schema_arns env cargs).1 =
      [Event.getConn cargs, Event.remoteCall "list_development_schema_arns" []] ∧
    (list_published_schema_arns env cargs).1 =
      [Event.getConn cargs, Event.remoteCall "list_published_schema_arns" []] := by
  refine ⟨?_, ?_, ?_, ?_, ?_, ?_, ?_⟩
  · simp [create_schema, falsy, hn]
  · simp [publish_schema, falsy, ha, hv, pyStr]
  · simp [create_directory, falsy, hnm, ha]
  · simp [put_schema_from_json, falsy, ha, hdoc, _filedata, hread]
  · simp [delete_schema, falsy, ha]
  · simp [list_development_schema_arns]
  · simp [list_published_schema_arns]

/-- Witness for C8: the traces of all seven operations at concrete
arguments against the all-ok mock connection. -/
theorem C8_witness :
    (create_schema envOk (some "n") cargs0).1 =
      [Event.getConn cargs0, Event.remoteCall "create_schema" [("Name", Arg.str "n")]] ∧
    (publish_schema envOk (some "a") (some "1.0") cargs0).1 =
      [Event.getConn cargs0, Event.remoteCall "publish_schema"
        [("DevelopmentSchemaArn", Arg.str "a"), ("Version", Arg.str "1.0")]] ∧
    (create_directory envOk (some "dir") (some "a") cargs0).1 =
      [Event.getConn cargs0, Event.remoteCall "create_directory"
        [("Name", Arg.str "dir"), ("SchemaArn", Arg.str "a")]] ∧
    (put_schema_from_json envOk (some "a") (some "/doc.json") cargs0).1 =
      [Event.getConn cargs0, Event.fileRead "/doc.json",
       Event.remoteCall "put_schema_from_json"
         [("SchemaArn", Arg.str "a"), ("Document", Arg.bytes docBytes)]] ∧
    (delete_schema envOk (some "a") cargs0).1 =
      [Event.getConn cargs0, Event.remoteCall "delete_schema" [("SchemaArn", Arg.str "a")]] ∧
    (list_development_schema_arns envOk cargs0).1 =
      [Event.getConn cargs0, Event.remoteCall "list_development_schema_arns" []] ∧
    (list_published_schema_arns envOk cargs0).1 =
      [Event.getConn cargs0, Event.remoteCall "list_published_schema_arns" []] :=
  C8_arguments_forwarded_one_to_one envOk cargs0 "n" "dir" "a" "1.0" "/doc.json" docBytes
    (by decide) (by decide) (by decide) (by decide) (by decide) rfl

/-- Claim C9: every operation resolves the connection first and exactly
once per call, before argument validation, the file read and the remote
call: for all inputs (including ones failing validation) the trace starts
with the connection-resolution event and contains exactly one such event. -/
theorem C9_connection_resolved_first_exactly_once
    (env : Env) (cargs : ConnArgs) (name arn version document : Option String) :
    ((create_schema env name cargs).1.head? = some (Event.getConn cargs) ∧
      (create_schema env name cargs).1.countP isGetConn = 1) ∧
    ((publish_schema env arn version cargs).1.head? = some (Event.getConn cargs) ∧
      (publish_schema env arn version cargs).1.countP isGetConn = 1) ∧
    ((create_directory env name arn cargs).1.head? = some (Event.getConn cargs) ∧
      (create_directory env name arn cargs).1.countP isGetConn = 1) ∧
    ((put_schema_from_json env arn document cargs).1.head? = some (Event.getConn cargs) ∧
      (put_schema_from_json env arn document cargs).1.countP isGetConn = 1) ∧
    ((delete_schema env arn cargs).1.head? = some (Event.getConn cargs) ∧
      (delete_schema env arn cargs).1.countP isGetConn = 1) ∧
    ((list_development_schema_arns env cargs).1.head? = some (Event.getConn cargs) ∧
      (list_development_schema_arns env cargs).1.countP isGetConn = 1) ∧
    ((list_published_schema_arns env cargs).1.head? = some (Event.getConn cargs) ∧
      (list_published_schema_arns env cargs).1.countP isGetConn = 1) := by
  refine ⟨?_, ?_, ?_, ?_, ?_, ?_, ?_⟩
  · cases hf : falsy name <;>
      simp [create_schema, hf, isGetConn, List.countP_cons, List.countP_nil]
  · cases hf : falsy arn || falsy version <;>
      simp [publish_schema, hf, isGetConn, List.countP_cons, List.countP_nil]
  · cases hf : falsy name || falsy arn <;>
      simp [create_directory, hf, isGetConn, List.countP_cons, List.countP_nil]
  · cases hf : falsy arn || falsy document
    · cases hr : _filedata env (document.getD "") <;>
        simp [put_schema_from_json, hf, hr, isGetConn, List.countP_cons, List.countP_nil]
    · simp [put_schema_from_json, hf, isGetConn, List.countP_cons, List.countP_nil]
  · cases hf : falsy arn <;>
      simp [delete_schema, hf, isGetConn, List.countP_cons, List.countP_nil]
  · simp [list_development_schema_arns, isGetConn, List.countP_cons, List.countP_nil]
  · simp [list_published_schema_arns, isGetConn, List.countP_cons, List.countP_nil]

/-- Claim C10: when the remote call succeeds but the response dict lacks
the projected field, each projecting operation raises an uncaught
`KeyError` instead of returning a payload or an error mapping. -/
theorem C10_missing_field_raises_keyerror
    (env : Env) (cargs : ConnArgs) (n nm a ver doc : String) (b : List Nat)
    (rc rp rd rj rl rm : Resp)
    (hn : n ≠ "") (hnm : nm ≠ "") (ha : a ≠ "") (hv : ver ≠ "") (hdoc : doc ≠ "")
    (hread : env.readFile doc = Except.ok b)
    (h1 : (env.getConn cargs).call "create_schema" [("Name", Arg.str n)] = Except.ok rc)
    (h1l : List.lookup "SchemaArn" rc = none)
    (h2 : (env.getConn cargs).call "publish_schema"
      [("DevelopmentSchemaArn", Arg.str a), ("Version", Arg.str ver)] = Except.ok rp)
    (h2l : List.lookup "PublishedSchemaArn" rp = none)
    (h3 : (env.getConn cargs).call "create_directory"
      [("Name", Arg.str nm), ("SchemaArn", Arg.str a)] = Except.ok rd)
    (h3l : List.lookup "DirectoryArn" rd = none)
    (h4 : (env.getConn cargs).call "put_schema_from_json"
      [("SchemaArn", Arg.str a), ("Document", Arg.bytes b)] = Except.ok rj)
    (h4l : List.lookup "Arn" rj = none)
    (h5 : (env.getConn cargs).call "list_development_schema_arns" [] = Except.ok rl)
    (h5l : List.lookup "SchemaArns" rl = none)
    (h6 : (env.getConn cargs).call "list_published_schema_arns" [] = Except.ok rm)
    (h6l : List.lookup "SchemaArns" rm = none) :
    (create_schema env (some n) cargs).2 = Except.error (Exn.keyError "SchemaArn") ∧
    (publish_schema env (some a) (some ver) cargs).2 =
      Except.error (Exn.keyError "PublishedSchemaArn") ∧
    (create_directory env (some nm) (some a) cargs).2 =
      Except.error (Exn.keyError "DirectoryArn") ∧
    (put_schema_from_json env (some a) (some doc) cargs).2 =
      Except.error (Exn.keyError "Arn") ∧
    (list_development_schema_arns env cargs).2 =
      Except.error (Exn.keyError "SchemaArns") ∧
    (list_published_schema_arns env cargs).2 =
      Except.error (Exn.keyError "SchemaArns") := by
  refine ⟨?_, ?_, ?_, ?_, ?_, ?_⟩
  · simp [create_schema, falsy, hn, h1, pyGetItem, h1l]
  · simp [publish_schema, falsy, ha, hv, pyStr, h2, pyGetItem, h2l]
  · simp [create_directory, falsy, hnm, ha, h3, pyGetItem, h3l]
  · simp [put_schema_from_json, falsy, ha, hdoc, _filedata, hread, h4, pyGetItem, h4l]
  · simp [list_development_schema_arns, h5, pyGetItem, h5l]
  · simp [list_published_schema_arns, h6, pyGetItem, h6l]

/-- Witness for C10: against the mock connection that returns an empty
dict, every projecting operation raises the `KeyError` of its field. -/
theorem C10_witness :
    (create_schema envEmptyResp (some "n") cargs0).2 =
      Except.error (Exn.keyError "SchemaArn") ∧
    (publish_schema envEmptyResp (some "a") (some "1.0") cargs0).2 =
      Except.error (Exn.keyError "PublishedSchemaArn") ∧
    (create_directory envEmptyResp (some "dir") (some "a") cargs0).2 =
      Except.error (Exn.keyError "DirectoryArn") ∧
    (put_schema_from_json envEmptyResp (some "a") (some "/doc.json") cargs0).2 =
      Except.error (Exn.keyError "Arn") ∧
    (list_development_schema_arns envEmptyResp cargs0).2 =
      Except.error (Exn.keyError "SchemaArns") ∧
    (list_published_schema_arns envEmptyResp cargs0).2 =
      Except.error (Exn.keyError "SchemaArns") :=
  C10_missing_field_raises_keyerror envEmptyResp cargs0 "n" "dir" "a" "1.0" "/doc.json"
    docBytes [] [] [] [] [] [] (by decide) (by decide) (by decide) (by decide) (by decide)
    rfl rfl rfl rfl rfl rfl rfl rfl rfl rfl rfl rfl rfl

end BotoCloudDirectory
